import Mathlib

/-!
Shallow embedding of `src/main.py`, a FastAPI backend that fetches YouTube
comments and classifies their sentiment with VADER.

External effects are modelled as explicit parameters:
  * the configured API key (`Option String`, with Python falsiness for
    `None` and the empty string);
  * the video-metadata response (`Except String VideoListResponse`, where
    `Except.error` models an exception raised by the client library);
  * the stream of comment pages returned by successive
    `commentThreads().list(...).execute()` calls
    (`Nat → Except String YTPage`);
  * the VADER compound score (`String → ℚ`), since the code only compares
    it against the fixed thresholds `0.05` and `-0.05`.

The paging `while` loop of `obtener_comentarios_youtube` is embedded with
explicit fuel; `none` means the fuel ran out before the loop exited, so
termination of the loop for a given page stream is the existence of
sufficient fuel.
-/

/-- Python truthiness test `if not API_KEY:`: `None` and `""` are falsy. -/
def isFalsyKey : Option String → Bool
  | none => true
  | some s => s == ""

/-- The counts dict of `analizar_sentimientos_vader`, initialised as
`counts = \x7b"Positivo": 0, "Neutral": 0, "Negativo": 0\x7d`; the record keeps
all three labels always present. -/
structure SentimentCounts where
  positivo : Nat
  neutral : Nat
  negativo : Nat
deriving DecidableEq, Repr

/-- One entry of the `classified_list` built by `analizar_sentimientos_vader`:
`\x7b"comentario": comentario, "sentimiento": sentimiento\x7d`. -/
structure ClassifiedComment where
  comentario : String
  sentimiento : String
deriving DecidableEq, Repr

/-- The threshold logic applied to a compound score inside the loop body of
`analizar_sentimientos_vader` (lines 138-146 of `src/main.py`). -/
def labelOf (compound_score : ℚ) : String :=
  if compound_score ≥ 5 / 100 then "Positivo"
  else if compound_score ≤ -5 / 100 then "Negativo"
  else "Neutral"

/-- The `for comentario in lista_comentarios:` loop of
`analizar_sentimientos_vader`, carrying the mutable `counts` and
`classified_list` accumulators. -/
def analizarLoop (scorer : String → ℚ) :
    List String → SentimentCounts → List ClassifiedComment →
      SentimentCounts × List ClassifiedComment
  | [], counts, classified_list => (counts, classified_list)
  | comentario :: rest, counts, classified_list =>
    let compound_score := scorer comentario
    if compound_score ≥ 5 / 100 then
      analizarLoop scorer rest { counts with positivo := counts.positivo + 1 }
        (classified_list ++ [⟨comentario, "Positivo"⟩])
    else if compound_score ≤ -5 / 100 then
      analizarLoop scorer rest { counts with negativo := counts.negativo + 1 }
        (classified_list ++ [⟨comentario, "Negativo"⟩])
    else
      analizarLoop scorer rest { counts with neutral := counts.neutral + 1 }
        (classified_list ++ [⟨comentario, "Neutral"⟩])

/-- `analizar_sentimientos_vader` (lines 125-153 of `src/main.py`): returns
the counts dict and the classified list. -/
def analizar_sentimientos_vader (scorer : String → ℚ) (lista_comentarios : List String) :
    SentimentCounts × List ClassifiedComment :=
  analizarLoop scorer lista_comentarios ⟨0, 0, 0⟩ []

theorem analizarLoop_snd (scorer : String → ℚ) (lista : List String) :
    ∀ (counts : SentimentCounts) (cl : List ClassifiedComment),
      (analizarLoop scorer lista counts cl).2
        = cl ++ lista.map (fun c => ⟨c, labelOf (scorer c)⟩) := by
  induction lista with
  | nil => intro counts cl; simp [analizarLoop]
  | cons c rest ih =>
    intro counts cl
    simp only [analizarLoop, List.map_cons]
    split_ifs with h1 h2 <;>
      rw [ih] <;> simp [labelOf, h1, *, List.append_assoc]

theorem analizarLoop_fst_sum (scorer : String → ℚ) (lista : List String) :
    ∀ (counts : SentimentCounts) (cl : List ClassifiedComment),
      (analizarLoop scorer lista counts cl).1.positivo
        + (analizarLoop scorer lista counts cl).1.neutral
        + (analizarLoop scorer lista counts cl).1.negativo
      = counts.positivo + counts.neutral + counts.negativo + lista.length := by
  induction lista with
  | nil => intro counts cl; simp [analizarLoop]
  | cons c rest ih =>
    intro counts cl
    simp only [analizarLoop]
    split_ifs with h1 h2 <;> simp [ih] <;> omega

theorem analizar_snd (scorer : String → ℚ) (lista : List String) :
    (analizar_sentimientos_vader scorer lista).2
      = lista.map (fun c => ⟨c, labelOf (scorer c)⟩) := by
  simp [analizar_sentimientos_vader, analizarLoop_snd]

theorem analizar_counts_sum (scorer : String → ℚ) (lista : List String) :
    (analizar_sentimientos_vader scorer lista).1.positivo
      + (analizar_sentimientos_vader scorer lista).1.neutral
      + (analizar_sentimientos_vader scorer lista).1.negativo
      = lista.length := by
  simp [analizar_sentimientos_vader, analizarLoop_fst_sum]

/-- One response of `youtube.commentThreads().list(...).execute()`:
the accumulated plain-text bodies of `response.get('items', [])`
and whether `response.get('nextPageToken')` is truthy. -/
structure YTPage where
  items : List String
  nextPageToken : Bool
deriving DecidableEq, Repr

/-- FastAPI's `HTTPException(status_code=..., detail=...)`. -/
structure HTTPException where
  status_code : Nat
  detail : String
deriving DecidableEq, Repr

/-- The `while len(comentarios) < 100:` loop of `obtener_comentarios_youtube`
(lines 94-111 of `src/main.py`). `pages i` is the response to the i-th
`execute()` call; `Except.error` models an exception raised by the call,
which escapes the loop. `none` means the fuel was exhausted before the
loop exited. -/
def obtenerLoop (pages : Nat → Except String YTPage) :
    Nat → Nat → List String → Option (Except String (List String))
  | 0, _, _ => none
  | fuel + 1, i, comentarios =>
    if comentarios.length < 100 then
      match pages i with
      | .error e => some (.error e)
      | .ok response =>
        let comentarios2 := comentarios ++ response.items
        if response.nextPageToken then
          obtenerLoop pages fuel (i + 1) comentarios2
        else
          some (.ok comentarios2)
    else
      some (.ok comentarios)

/-- `obtener_comentarios_youtube` (lines 77-121 of `src/main.py`):
503 if the key is missing, the paging loop truncated to 100 on success,
a 500 `HTTPException` carrying the cause text if a page call raises. -/
def obtener_comentarios_youtube (apiKey : Option String)
    (pages : Nat → Except String YTPage) (fuel : Nat) :
    Option (Except HTTPException (List String)) :=
  if isFalsyKey apiKey then
    some (.error ⟨503, "Servicio no disponible: Falta configuración de API Key en el servidor."⟩)
  else
    match obtenerLoop pages fuel 0 [] with
    | none => none
    | some (.error e) =>
      some (.error ⟨500, "Error al contactar la API de YouTube: " ++ e⟩)
    | some (.ok comentarios) => some (.ok (comentarios.take 100))

/-- The snippet of one item of `youtube.videos().list(...)`; each field is
optional because the code reads it with `.get(..., default)`. The nested
`thumbnails.medium.url` lookup is flattened into one optional field. -/
structure VideoSnippet where
  title : Option String
  channelTitle : Option String
  thumbnailMediumUrl : Option String
  publishedAt : Option String
deriving DecidableEq, Repr

/-- The response of `youtube.videos().list(...).execute()`: its `items`. -/
structure VideoListResponse where
  items : List VideoSnippet
deriving DecidableEq, Repr

/-- The metadata record assembled by `obtener_info_video`. -/
structure VideoInfo where
  title : String
  channel : String
  thumbnail : String
  published_at : String
deriving DecidableEq, Repr

/-- `obtener_info_video` (lines 43-73 of `src/main.py`): `None` when the key
is missing, when the call raises (the `except` clause), or when
`response.get('items')` is empty; otherwise the snippet of the first item
with per-field defaults. -/
def obtener_info_video (apiKey : Option String)
    (videoResp : Except String VideoListResponse) : Option VideoInfo :=
  if isFalsyKey apiKey then
    none
  else
    match videoResp with
    | .error _ => none
    | .ok response =>
      match response.items with
      | [] => none
      | video_data :: _ =>
        some
          { title := video_data.title.getD "Título no disponible"
            channel := video_data.channelTitle.getD "Canal no disponible"
            thumbnail := video_data.thumbnailMediumUrl.getD ""
            published_at := video_data.publishedAt.getD "" }

/-- The JSON payload returned by `analizar_video` on success
(lines 186-192 of `src/main.py`). -/
structure AnalysisResponse where
  video_id : String
  video_info : Option VideoInfo
  total_comentarios : Nat
  sentimientos : SentimentCounts
  lista_comentarios : List ClassifiedComment
deriving DecidableEq, Repr

/-- The `/analizar/` request handler `analizar_video`
(lines 156-192 of `src/main.py`): metadata fetch (best effort), comment
fetch (`HTTPException` propagates), 404 on an empty comment list, then the
sentiment pass and the assembled payload. `none` again means the comment
loop ran out of fuel. -/
def analizar_video (apiKey : Option String) (scorer : String → ℚ)
    (videoResp : Except String VideoListResponse)
    (pages : Nat → Except String YTPage) (fuel : Nat) (video_id : String) :
    Option (Except HTTPException AnalysisResponse) :=
  let video_info := obtener_info_video apiKey videoResp
  match obtener_comentarios_youtube apiKey pages fuel with
  | none => none
  | some (.error e) => some (.error e)
  | some (.ok comentarios) =>
    if comentarios.isEmpty then
      some (.error ⟨404, "No se encontraron comentarios para este video."⟩)
    else
      let res := analizar_sentimientos_vader scorer comentarios
      some (.ok
        { video_id := video_id
          video_info := video_info
          total_comentarios := comentarios.length
          sentimientos := res.1
          lista_comentarios := res.2 })

/-- Termination of the paging loop on a given page stream: some amount of
fuel makes it exit (normally or with an exception). -/
def loopTerminates (pages : Nat → Except String YTPage) : Prop :=
  ∃ fuel, (obtenerLoop pages fuel 0 []).isSome

/-- A page stream on which every `execute()` call succeeds, contributes no
comments, and reports a next-page token. -/
def badPages : Nat → Except String YTPage := fun _ => .ok ⟨[], true⟩

/-- Whether the i-th page call makes the loop stop on its own: it raises, or
it reports no next-page token. -/
def pageStops (pages : Nat → Except String YTPage) (i : Nat) : Bool :=
  match pages i with
  | .error _ => true
  | .ok response => !response.nextPageToken

/-- Total number of comment bodies contributed by the `k` page calls
starting at index `i` (an erroring call contributes none). -/
def itemsLen (pages : Nat → Except String YTPage) (i : Nat) : Nat → Nat
  | 0 => 0
  | k + 1 =>
    (match pages i with
     | .ok response => response.items.length
     | .error _ => 0) + itemsLen pages (i + 1) k

theorem obtenerLoop_stops (pages : Nat → Except String YTPage) :
    ∀ (k i : Nat) (cs : List String), pageStops pages (i + k) = true →
      (obtenerLoop pages (k + 1) i cs).isSome := by
  intro k
  induction k with
  | zero =>
    intro i cs h0
    simp only [obtenerLoop]
    split
    · cases hp : pages i with
      | error e => simp [hp]
      | ok response =>
        have ht : response.nextPageToken = false := by
          simpa [pageStops, hp] using h0
        simp [hp, ht]
    · simp
  | succ k ih =>
    intro i cs h0
    simp only [obtenerLoop]
    split
    · cases hp : pages i with
      | error e => simp [hp]
      | ok response =>
        cases ht : response.nextPageToken with
        | false => simp [hp, ht]
        | true =>
          simp only [hp, ht, if_true]
          apply ih (i + 1)
          have hidx : i + 1 + k = i + (k + 1) := by omega
          rw [hidx]
          exact h0
    · simp

theorem obtenerLoop_reaches (pages : Nat → Except String YTPage) :
    ∀ (k i : Nat) (cs : List String), 100 ≤ cs.length + itemsLen pages i k →
      (obtenerLoop pages (k + 1) i cs).isSome := by
  intro k
  induction k with
  | zero =>
    intro i cs h0
    simp only [itemsLen, Nat.add_zero] at h0
    simp only [obtenerLoop]
    split
    · omega
    · simp
  | succ k ih =>
    intro i cs h0
    simp only [obtenerLoop]
    split
    · cases hp : pages i with
      | error e => simp [hp]
      | ok response =>
        cases ht : response.nextPageToken with
        | false => simp [hp, ht]
        | true =>
          simp only [hp, ht, if_true]
          apply ih (i + 1)
          simp only [itemsLen, hp] at h0
          simp only [List.length_append]
          omega
    · simp

theorem badPages_loop_none : ∀ (fuel i : Nat), obtenerLoop badPages fuel i [] = none := by
  intro fuel
  induction fuel with
  | zero => intro i; rfl
  | succ n ih => intro i; simp [obtenerLoop, badPages, ih]

/-- C1: for every scorer and input list, the three counts returned by
`analizar_sentimientos_vader` sum to the length of the input list; the
`SentimentCounts` record keeps all three labels present, and they default
to zero on the empty input. -/
theorem C1_counts_sum_eq_length (scorer : String → ℚ) (lista : List String) :
    (analizar_sentimientos_vader scorer lista).1.positivo
        + (analizar_sentimientos_vader scorer lista).1.neutral
        + (analizar_sentimientos_vader scorer lista).1.negativo
      = lista.length
    ∧ (analizar_sentimientos_vader scorer []).1 = ⟨0, 0, 0⟩ := by
  exact ⟨analizar_counts_sum scorer lista, rfl⟩

/-- C2: the label assigned to each comment is the pure function `labelOf` of
the scorer's compound score alone, and `labelOf` has inclusive boundaries:
`0.05 ↦ "Positivo"`, `-0.05 ↦ "Negativo"`, and `0 ↦ "Neutral"`. -/
theorem C2_label_pure_function (scorer : String → ℚ) (lista : List String) :
    (analizar_sentimientos_vader scorer lista).2.map (fun x => x.sentimiento)
        = lista.map (fun c => labelOf (scorer c))
    ∧ labelOf (5 / 100) = "Positivo"
    ∧ labelOf (-5 / 100) = "Negativo"
    ∧ labelOf 0 = "Neutral" := by
  refine ⟨?_, ?_, ?_, ?_⟩
  · rw [analizar_snd]
    simp
  · norm_num [labelOf]
  · norm_num [labelOf]
  · norm_num [labelOf]

/-- C3: the classified list has the same length as the input and pairs the
i-th input comment with its label, preserving input order (its `comentario`
projection is the input list itself). -/
theorem C3_order_and_length_preserved (scorer : String → ℚ) (lista : List String) :
    (analizar_sentimientos_vader scorer lista).2.length = lista.length
    ∧ (analizar_sentimientos_vader scorer lista).2.map (fun x => x.comentario) = lista := by
  refine ⟨?_, ?_⟩
  · rw [analizar_snd]
    simp
  · rw [analizar_snd, List.map_map]
    show List.map (fun c => c) lista = lista
    simp

/-- C4: whenever `obtener_comentarios_youtube` returns a comment list, that
list has at most 100 elements, whatever the page stream supplied. -/
theorem C4_at_most_100 (apiKey : Option String) (pages : Nat → Except String YTPage)
    (fuel : Nat) (res : List String)
    (h : obtener_comentarios_youtube apiKey pages fuel = some (.ok res)) :
    res.length ≤ 100 := by
  unfold obtener_comentarios_youtube at h
  split at h
  · simp at h
  · split at h
    · simp at h
    · simp at h
    · rename_i cs heq
      simp only [Option.some.injEq, Except.ok.injEq] at h
      subst h
      exact List.length_take_le 100 cs

theorem C4_witness : ([("a" : String)]).length ≤ 100 :=
  C4_at_most_100 (some "k") (fun _ => .ok ⟨["a"], false⟩) 1 ["a"] (by rfl)

/-- C5: when the API key is falsy, every `/analizar/` request answers with
the 503 `HTTPException`, and `obtener_info_video` short-circuits to `none`
whatever the metadata response would have been (no external call can
influence the outcome). -/
theorem C5_503_when_key_missing (apiKey : Option String) (h : isFalsyKey apiKey = true)
    (videoResp : Except String VideoListResponse) (scorer : String → ℚ)
    (pages : Nat → Except String YTPage) (fuel : Nat) (video_id : String) :
    obtener_info_video apiKey videoResp = none
    ∧ analizar_video apiKey scorer videoResp pages fuel video_id
        = some (.error
            ⟨503, "Servicio no disponible: Falta configuración de API Key en el servidor."⟩) := by
  constructor
  · simp [obtener_info_video, h]
  · simp [analizar_video, obtener_comentarios_youtube, obtener_info_video, h]

theorem C5_witness :
    obtener_info_video none (.error "x") = none
    ∧ analizar_video none (fun _ => 0) (.error "x") (fun _ => .ok ⟨[], false⟩) 1 "abcdefghijk"
        = some (.error
            ⟨503, "Servicio no disponible: Falta configuración de API Key en el servidor."⟩) :=
  C5_503_when_key_missing none rfl (.error "x") (fun _ => 0) (fun _ => .ok ⟨[], false⟩) 1
    "abcdefghijk"

/-- C6: when the comment fetch succeeds with an empty list, `analizar_video`
answers with the 404 `HTTPException`, so no 200 payload is produced and the
classifier result never reaches the response. -/
theorem C6_404_on_empty (apiKey : Option String) (scorer : String → ℚ)
    (videoResp : Except String VideoListResponse) (pages : Nat → Except String YTPage)
    (fuel : Nat) (video_id : String)
    (h : obtener_comentarios_youtube apiKey pages fuel = some (.ok [])) :
    analizar_video apiKey scorer videoResp pages fuel video_id
      = some (.error ⟨404, "No se encontraron comentarios para este video."⟩) := by
  simp [analizar_video, h]

theorem C6_witness :
    analizar_video (some "k") (fun _ => 0) (.error "x") (fun _ => .ok ⟨[], false⟩) 1 "abcdefghijk"
      = some (.error ⟨404, "No se encontraron comentarios para este video."⟩) :=
  C6_404_on_empty (some "k") (fun _ => 0) (.error "x") (fun _ => .ok ⟨[], false⟩) 1 "abcdefghijk"
    (by rfl)

/-- C7: any failure of the metadata call is swallowed: `obtener_info_video`
returns `none` when the call raises or when the record is missing, and when
the comment fetch then succeeds with a non-empty list the pipeline still
answers 200 with a `null` `video_info` field. -/
theorem C7_metadata_swallowed (apiKey : Option String) (msg : String)
    (scorer : String → ℚ) (pages : Nat → Except String YTPage) (fuel : Nat)
    (video_id : String) (cs : List String)
    (hcs : obtener_comentarios_youtube apiKey pages fuel = some (.ok cs))
    (hne : cs ≠ []) :
    obtener_info_video apiKey (.error msg) = none
    ∧ (∀ response : VideoListResponse, response.items = [] →
        obtener_info_video apiKey (.ok response) = none)
    ∧ ∃ resp : AnalysisResponse,
        analizar_video apiKey scorer (.error msg) pages fuel video_id = some (.ok resp)
        ∧ resp.video_info = none := by
  have hinfo : obtener_info_video apiKey (.error msg) = none := by
    cases hk : isFalsyKey apiKey <;> simp [obtener_info_video, hk]
  refine ⟨hinfo, ?_, ?_⟩
  · intro response hr
    obtain ⟨items⟩ := response
    simp only at hr
    subst hr
    cases hk : isFalsyKey apiKey <;> simp [obtener_info_video, hk]
  · refine ⟨⟨video_id, none, cs.length, (analizar_sentimientos_vader scorer cs).1,
      (analizar_sentimientos_vader scorer cs).2⟩, ?_, rfl⟩
    simp [analizar_video, hcs, hinfo, hne, analizar_sentimientos_vader]

theorem C7_witness :
    obtener_info_video (some "k") (.error "boom") = none
    ∧ (∀ response : VideoListResponse, response.items = [] →
        obtener_info_video (some "k") (.ok response) = none)
    ∧ ∃ resp : AnalysisResponse,
        analizar_video (some "k") (fun _ => 0) (.error "boom")
            (fun _ => .ok ⟨["hola"], false⟩) 1 "abcdefghijk" = some (.ok resp)
        ∧ resp.video_info = none :=
  C7_metadata_swallowed (some "k") "boom" (fun _ => 0) (fun _ => .ok ⟨["hola"], false⟩) 1
    "abcdefghijk" ["hola"] (by rfl) (by simp)

/-- C8: with the key configured, an exception raised by a page call makes
`obtener_comentarios_youtube` answer the 500 `HTTPException` whose detail
contains the underlying message, and it does so with any remaining fuel
(so no retry is ever attempted). -/
theorem C8_500_on_upstream_error (apiKey : Option String) (h : isFalsyKey apiKey = false)
    (pages : Nat → Except String YTPage) (msg : String) (hp : pages 0 = .error msg)
    (fuel : Nat) :
    obtener_comentarios_youtube apiKey pages (fuel + 1)
      = some (.error ⟨500, "Error al contactar la API de YouTube: " ++ msg⟩)
    ∧ ∃ pre, "Error al contactar la API de YouTube: " ++ msg = pre ++ msg := by
  refine ⟨?_, "Error al contactar la API de YouTube: ", rfl⟩
  simp [obtener_comentarios_youtube, h, obtenerLoop, hp]

theorem C8_witness :
    obtener_comentarios_youtube (some "k") (fun _ => .error "boom") 1
      = some (.error ⟨500, "Error al contactar la API de YouTube: " ++ "boom"⟩)
    ∧ ∃ pre, "Error al contactar la API de YouTube: " ++ "boom" = pre ++ "boom" :=
  C8_500_on_upstream_error (some "k") rfl (fun _ => .error "boom") "boom" rfl 0

/-- C9 (counterexample): on the page stream whose every call succeeds with
zero items and a next-page token, the paging loop never exits, whatever
fuel it is given — the loop does not terminate for every page sequence. -/
theorem C9_counterexample : ¬ loopTerminates badPages := by
  rintro ⟨fuel, hf⟩
  rw [badPages_loop_none fuel 0] at hf
  simp at hf

/-- C9 (amended): the paging loop stops as soon as 100 comments have been
accumulated or a page call fails or carries no next-page token; hence it
terminates on every page stream that eventually has such a stopping page or
whose cumulative item count eventually reaches 100. -/
theorem C9_loop_terminates (pages : Nat → Except String YTPage)
    (h : (∃ i, pageStops pages i = true) ∨ (∃ k, 100 ≤ itemsLen pages 0 k)) :
    loopTerminates pages := by
  rcases h with ⟨i, hi⟩ | ⟨k, hk⟩
  · exact ⟨i + 1, obtenerLoop_stops pages i 0 [] (by simpa using hi)⟩
  · exact ⟨k + 1, obtenerLoop_reaches pages k 0 [] (by simpa using hk)⟩

theorem C9_witness : loopTerminates (fun _ => .ok ⟨["a"], false⟩) :=
  C9_loop_terminates (fun _ => .ok ⟨["a"], false⟩) (Or.inl ⟨0, rfl⟩)

/-- C10: every 200 payload of `/analizar/` is internally consistent:
`total_comentarios` equals both the length of `lista_comentarios` and the
sum of the three counts in `sentimientos`. -/
theorem C10_payload_consistent (apiKey : Option String) (scorer : String → ℚ)
    (videoResp : Except String VideoListResponse) (pages : Nat → Except String YTPage)
    (fuel : Nat) (video_id : String) (resp : AnalysisResponse)
    (h : analizar_video apiKey scorer videoResp pages fuel video_id = some (.ok resp)) :
    resp.total_comentarios = resp.lista_comentarios.length
    ∧ resp.total_comentarios
        = resp.sentimientos.positivo + resp.sentimientos.neutral
            + resp.sentimientos.negativo := by
  unfold analizar_video at h
  split at h
  · simp at h
  · simp at h
  · rename_i comentarios heq
    split at h
    · simp at h
    · simp only [Option.some.injEq, Except.ok.injEq] at h
      subst h
      refine ⟨?_, ?_⟩
      · simp [analizar_snd]
      · exact (analizar_counts_sum scorer comentarios).symm

theorem C10_witness :
    (AnalysisResponse.mk "abcdefghijk" none 1 ⟨0, 1, 0⟩
        [⟨"hola", "Neutral"⟩]).total_comentarios
      = (AnalysisResponse.mk "abcdefghijk" none 1 ⟨0, 1, 0⟩
          [⟨"hola", "Neutral"⟩]).lista_comentarios.length
    ∧ (AnalysisResponse.mk "abcdefghijk" none 1 ⟨0, 1, 0⟩
        [⟨"hola", "Neutral"⟩]).total_comentarios
      = (AnalysisResponse.mk "abcdefghijk" none 1 ⟨0, 1, 0⟩
          [⟨"hola", "Neutral"⟩]).sentimientos.positivo
        + (AnalysisResponse.mk "abcdefghijk" none 1 ⟨0, 1, 0⟩
            [⟨"hola", "Neutral"⟩]).sentimientos.neutral
        + (AnalysisResponse.mk "abcdefghijk" none 1 ⟨0, 1, 0⟩
            [⟨"hola", "Neutral"⟩]).sentimientos.negativo :=
  C10_payload_consistent (some "k") (fun _ => 0) (.error "boom")
    (fun _ => .ok ⟨["hola"], false⟩) 1 "abcdefghijk"
    (AnalysisResponse.mk "abcdefghijk" none 1 ⟨0, 1, 0⟩ [⟨"hola", "Neutral"⟩])
    (by
      have h1 : obtener_info_video (some "k") (.error "boom") = none := rfl
      have h2 : obtener_comentarios_youtube (some "k") (fun _ => .ok ⟨["hola"], false⟩) 1
          = some (.ok ["hola"]) := rfl
      simp only [analizar_video, h1, h2]
      norm_num [analizar_sentimientos_vader, analizarLoop])
